import Mathlib

/-!
Verification of the Fort Bend County brand scraper
(`scrape_texas_brands_FortBendCounty.py`).

The scraper drives a browser page; we embed the page as pure data.  A DOM
cell carries its tag (`td` or `th`) and its inner text; the text is an
`Option String`, with `none` modelling a cell whose `inner_text()` call
raises.  A row carries its own inner text (again `Option`, `none` = the
call raises) and its cell list (`none` = the `query_selector_all` call on
that row raises).  Effectful steps (checkbox selection, search submission,
waiting, saving) are embedded as functions from a small environment record
describing the outcomes of the browser primitives to an `Except`/trace
result, mirroring the Python control flow statement by statement.
-/

namespace FortBend

/-! ### Python string primitives

`str.replace`, `str.strip` and the `in` substring test are modelled on
`List Char`.  `pyStripL` removes the six ASCII whitespace characters that
Python's `strip()` removes; `replaceAll` replaces every non-overlapping
occurrence left to right, as `str.replace` does. -/

def isPySpace (c : Char) : Bool :=
  c = ' ' || c = '\t' || c = '\n' || c = '\r' || c = '\u000B' || c = '\u000C'

def pyStripL (s : List Char) : List Char :=
  ((s.dropWhile isPySpace).reverse.dropWhile isPySpace).reverse

def pyStrip (s : String) : String :=
  String.mk (pyStripL s.data)

/-- Result of matching `pat` against the front of `s`: the rest of `s`
after the match, or `none` when `pat` is not a prefix of `s`. -/
def dropMatch : List Char → List Char → Option (List Char)
  | [], s => some s
  | _ :: _, [] => none
  | p :: ps, c :: cs => if c = p then dropMatch ps cs else none

/-- Fuelled worker for `replaceAll`; the fuel is the length of the input,
which is enough for any non-empty pattern. -/
def replaceAux (pat rep : List Char) : Nat → List Char → List Char
  | _, [] => []
  | 0, s => s
  | Nat.succ n, c :: cs =>
    match dropMatch pat (c :: cs) with
    | some rest => rep ++ replaceAux pat rep n rest
    | none => c :: replaceAux pat rep n cs

def replaceAll (pat rep s : List Char) : List Char :=
  replaceAux pat rep s.length s

/-- Does `pat` occur as a contiguous substring of the second list
(Python's `pat in hay`)? -/
def containsSubL (pat : List Char) : List Char → Bool
  | [] => pat.isEmpty
  | c :: rest => (dropMatch pat (c :: rest)).isSome || containsSubL pat rest

def strContains (hay pat : String) : Bool :=
  containsSubL pat.data hay.data

/-- Cell text normalisation of the row mapper:
`text.replace(chr(38) ++ "nbsp;", " ").strip()` as the source writes it. -/
def normalizeCellText (s : String) : String :=
  String.mk (pyStripL (replaceAll "&nbsp;".data " ".data s.data))

/-! ### DOM model -/

inductive CellTag where
  | td : CellTag
  | th : CellTag
deriving DecidableEq

structure Cell where
  tag : CellTag
  text : Option String
deriving DecidableEq

structure Row where
  rowText : Option String
  cells : Option (List Cell)
deriving DecidableEq

structure Table where
  rows : List Row
deriving DecidableEq

/-- The cell list a `query_selector_all("td")` call on a row returns. -/
def queryTd (cs : List Cell) : List Cell :=
  cs.filter fun c => c.tag = CellTag.td

/-- The cell list a `query_selector_all("td, th")` call on a row returns. -/
def queryTdTh (cs : List Cell) : List Cell :=
  cs.filter fun c => c.tag = CellTag.td || c.tag = CellTag.th

/-! ### Table discovery (`find_results_table`) -/

/-- Inner scan of `find_results_table`: walk the `td` cells of a sampled
row and report whether some cell has meaningful text
(`cell_text.strip()` truthy and different from the placeholder).
`Except.error` models a raising `inner_text()` call, which the source's
per-table handler turns into skipping the table. -/
def scanCells : List Cell → Except Unit Bool
  | [] => Except.ok false
  | c :: cs =>
    match c.text with
    | none => Except.error ()
    | some t =>
      if pyStrip t ≠ "" ∧ pyStrip t ≠ "&nbsp;" then Except.ok true
      else scanCells cs

/-- Scan of the sampled data rows (`rows[1:3]`). -/
def scanRows : List Row → Except Unit Bool
  | [] => Except.ok false
  | r :: rs =>
    match r.cells with
    | none => Except.error ()
    | some cs =>
      match scanCells (queryTd cs) with
      | Except.error e => Except.error e
      | Except.ok true => Except.ok true
      | Except.ok false => scanRows rs

/-- Per-table body of `find_results_table`: `ok (some (numRows, numCols))`
means the table is accepted, `ok none` that a filter rejected it, and
`error` that a browser call raised (the `except` clause then moves on to
the next table). -/
def tableCheck (t : Table) : Except Unit (Option (Nat × Nat)) :=
  if t.rows.length ≤ 1 then Except.ok none
  else
    match t.rows with
    | [] => Except.ok none
    | r0 :: rest =>
      match r0.cells with
      | none => Except.error ()
      | some cs0 =>
        if (queryTdTh cs0).length < 3 then Except.ok none
        else
          match scanRows (rest.take 2) with
          | Except.error e => Except.error e
          | Except.ok true =>
            Except.ok (some (t.rows.length, (queryTdTh cs0).length))
          | Except.ok false => Except.ok none

def findAux : Nat → List Table → Option (Table × Nat × Nat × Nat)
  | _, [] => none
  | i, t :: ts =>
    match tableCheck t with
    | Except.ok (some (nr, nc)) => some (t, i, nr, nc)
    | _ => findAux (i + 1) ts

/-- `find_results_table`: first table (in document order) passing the
heuristics, with its index, row count and first-row cell count. -/
def find_results_table (tables : List Table) : Option (Table × Nat × Nat × Nat) :=
  findAux 0 tables

/-! ### Row-to-record mapping (`scrape_results_table`) -/

structure Record where
  row_number : Nat
  instrument_number : String
  date : String
  doc_type : String
  grantor : String
  grantee : String
  legal_description : String
  raw_data : List String
deriving DecidableEq

/-- Text extracted from one cell in the row loop: a raising
`inner_text()` is caught per cell and contributes the empty string. -/
def cellText (c : Cell) : String :=
  match c.text with
  | some t => normalizeCellText t
  | none => ""

/-- Body of the per-row loop: `none` when the row raises on its cell
query (caught, row skipped) or has fewer than 3 `td` cells (silently
dropped); otherwise the record the source builds, `row_number = i + 1`. -/
def rowToRecord (i : Nat) (r : Row) : Option Record :=
  match r.cells with
  | none => none
  | some cs =>
    let tds := queryTd cs
    if 3 ≤ tds.length then
      let texts := tds.map cellText
      some
        { row_number := i + 1
          instrument_number := texts.getD 0 ""
          date := texts.getD 1 ""
          doc_type := texts.getD 2 ""
          grantor := texts.getD 3 ""
          grantee := texts.getD 4 ""
          legal_description := texts.getD 5 ""
          raw_data := texts }
    else none

def headerKeywords : List String := ["Instrument", "Date", "Doc Type"]

/-- Header detection on the found table's rows: read the first row's full
text (a raising read propagates to the outer handler, modelled as
`error`); when it is truthy and holds a header keyword, start at row 1. -/
def detectStartRow (rows : List Row) : Except Unit Nat :=
  match rows with
  | [] => Except.ok 0
  | r0 :: _ =>
    match r0.rowText with
    | none => Except.error ()
    | some t =>
      if t.data.isEmpty then Except.ok 0
      else if headerKeywords.any (fun k => strContains t k) then Except.ok 1
      else Except.ok 0

/-- The row loop of `scrape_results_table`, carrying the original row
index `i` used for `row_number`. -/
def extractFrom : Nat → List Row → List Record
  | _, [] => []
  | i, r :: rs =>
    match rowToRecord i r with
    | some rec => rec :: extractFrom (i + 1) rs
    | none => extractFrom (i + 1) rs

/-- Extraction from the found results table: header detection, then the
row loop from the start row.  A raising header read is caught by the
function's outer handler, which returns the empty list. -/
def extractTable (t : Table) : List Record :=
  match detectStartRow t.rows with
  | Except.error _ => []
  | Except.ok s => extractFrom s (t.rows.drop s)

/-- `scrape_results_table` on the page's tables: discovery then
extraction; no table found gives the empty list. -/
def scrape_results_table (tables : List Table) : List Record :=
  match find_results_table tables with
  | none => []
  | some (t, _, _, _) => extractTable t

/-- Named field of a record at a positional index, following the
positional mapping 0 → instrument_number … 5 → legal_description. -/
def Record.namedField (r : Record) : Nat → String
  | 0 => r.instrument_number
  | 1 => r.date
  | 2 => r.doc_type
  | 3 => r.grantor
  | 4 => r.grantee
  | 5 => r.legal_description
  | _ => ""

/-- Row of the C4 counterexample: three `td` cells, the middle one with a
raising `inner_text()` call. -/
def c4row : Row :=
  ⟨some "x", some [⟨CellTag.td, some "a"⟩, ⟨CellTag.td, none⟩, ⟨CellTag.td, some "e"⟩]⟩

/-! ### Filter selector (`select_brand_document_type`)

The environment captures the browser primitives the function calls:
whether `wait_for_selector` finds the checkbox within its timeout
(raising otherwise), and the checked state before and after the click.
The result is the trace of page actions, or `error` when the function
re-raises. -/

inductive CbAction where
  | waitSelector : CbAction
  | readChecked : CbAction
  | clickBox : CbAction
  | settleWait : CbAction
  | warnUnchecked : CbAction
deriving DecidableEq

structure CheckboxEnv where
  found : Bool
  checkedBefore : Bool
  checkedAfter : Bool
deriving DecidableEq

def select_brand_document_type (e : CheckboxEnv) : Except Unit (List CbAction) :=
  if e.found = false then Except.error ()
  else if e.checkedBefore then
    Except.ok [CbAction.waitSelector, CbAction.readChecked]
  else
    Except.ok
      ([CbAction.waitSelector, CbAction.readChecked, CbAction.clickBox,
        CbAction.settleWait, CbAction.readChecked] ++
        (if e.checkedAfter then [] else [CbAction.warnUnchecked]))

/-! ### Search submitter (`click_search_button`) -/

structure SubmitEnv where
  selectorMatches : List Bool
  clickOk : Bool
  pressOk : Bool
deriving DecidableEq

def click_search_button (e : SubmitEnv) : Except Unit Unit :=
  if e.selectorMatches.any id then
    if e.clickOk then Except.ok () else Except.error ()
  else
    if e.pressOk then Except.ok () else Except.error ()

/-! ### Results waiter (`wait_for_search_results`)

The environment records whether the searching indicator appears and then
disappears within their timeouts (a `false` models the corresponding
`wait_for_selector` raising), and the page URL at the three points where
the function reads it.  The function is total with result `Bool`: the
`except` clause turns any raising wait into a final URL check. -/

structure WaitEnv where
  modalAppears : Bool
  modalDisappears : Bool
  urlAfterSettle : String
  urlAfterExtra : String
  urlAtFailure : String
deriving DecidableEq

def resultsUrlFragment : String := "SearchResults.aspx"

def wait_for_search_results (e : WaitEnv) : Bool :=
  if e.modalAppears then
    if e.modalDisappears then
      if strContains e.urlAfterSettle resultsUrlFragment then true
      else if strContains e.urlAfterExtra resultsUrlFragment then true
      else false
    else strContains e.urlAtFailure resultsUrlFragment
  else strContains e.urlAtFailure resultsUrlFragment

/-! ### Persister (`save_results`)

JSON values are embedded as a tree; `json.dumps` of a record dictionary
is the object with the record's keys in insertion order, and parsing a
line back reads those fields off.  The environment says whether each
file write succeeds; the result records which writes were attempted and
completed, and the JSON lines written to the JSONL file when its write
succeeds. -/

inductive JVal where
  | jstr : String → JVal
  | jnum : Nat → JVal
  | jarr : List JVal → JVal
  | jobj : List (String × JVal) → JVal

/-- The JSON object `json.dumps` serialises for one record dictionary,
keys in the record's insertion order. -/
def recordToJson (r : Record) : JVal :=
  JVal.jobj
    [("row_number", JVal.jnum r.row_number),
     ("instrument_number", JVal.jstr r.instrument_number),
     ("date", JVal.jstr r.date),
     ("doc_type", JVal.jstr r.doc_type),
     ("grantor", JVal.jstr r.grantor),
     ("grantee", JVal.jstr r.grantee),
     ("legal_description", JVal.jstr r.legal_description),
     ("raw_data", JVal.jarr (r.raw_data.map JVal.jstr))]

def asStrList : List JVal → Option (List String)
  | [] => some []
  | JVal.jstr s :: rest =>
    match asStrList rest with
    | some l => some (s :: l)
    | none => none
  | _ => none

/-- Reading a parsed JSONL line back into a record: an integer
`row_number`, six string fields and a string-array `raw_data`. -/
def jsonToRecord : JVal → Option Record
  | JVal.jobj
      [("row_number", JVal.jnum n),
       ("instrument_number", JVal.jstr a),
       ("date", JVal.jstr b),
       ("doc_type", JVal.jstr c),
       ("grantor", JVal.jstr d),
       ("grantee", JVal.jstr e),
       ("legal_description", JVal.jstr f),
       ("raw_data", JVal.jarr rd)] =>
    match asStrList rd with
    | some l => some (Record.mk n a b c d e f l)
    | none => none
  | _ => none

structure SaveEnv where
  csvOk : Bool
  jsonlOk : Bool
deriving DecidableEq

inductive SaveAction where
  | csvAttempt : SaveAction
  | csvSaved : SaveAction
  | jsonlAttempt : SaveAction
  | jsonlSaved : SaveAction
deriving DecidableEq

structure SaveResult where
  actions : List SaveAction
  jsonl : List JVal

def save_results (e : SaveEnv) (data : List Record) : SaveResult :=
  if data.isEmpty then ⟨[], []⟩
  else
    { actions :=
        [SaveAction.csvAttempt] ++ (if e.csvOk then [SaveAction.csvSaved] else []) ++
        [SaveAction.jsonlAttempt] ++ (if e.jsonlOk then [SaveAction.jsonlSaved] else [])
      jsonl := if e.jsonlOk then data.map recordToJson else [] }

/-! ### The main pipeline (`main`)

One environment per step; `error` is an exception reaching `main`'s
handler, which re-raises after logging.  The waiter's boolean is only
warned about, the extractor returns its (possibly empty) record list to
the persister, whose per-format handlers make it total. -/

structure MainEnv where
  gotoOk : Bool
  checkbox : CheckboxEnv
  submit : SubmitEnv
  wait : WaitEnv
  tables : List Table
  save : SaveEnv

def runMain (env : MainEnv) : Except Unit (List Record × SaveResult) :=
  if env.gotoOk = false then Except.error ()
  else
    match select_brand_document_type env.checkbox with
    | Except.error _ => Except.error ()
    | Except.ok _ =>
      match click_search_button env.submit with
      | Except.error _ => Except.error ()
      | Except.ok _ =>
        let _arrived := wait_for_search_results env.wait
        let data := scrape_results_table env.tables
        Except.ok (data, save_results env.save data)

/-- First row of the C7 counterexample table: wide enough for discovery,
but its row-level `inner_text()` call raises, so header detection inside
the extractor raises. -/
def c7row0 : Row :=
  ⟨none, some [⟨CellTag.td, some "a"⟩, ⟨CellTag.td, some "b"⟩, ⟨CellTag.td, some "c"⟩]⟩

def c7row1 : Row :=
  ⟨some "x", some [⟨CellTag.td, some "I100"⟩, ⟨CellTag.td, some "2020"⟩, ⟨CellTag.td, some "BRAND"⟩]⟩

def c7table : Table := ⟨[c7row0, c7row1]⟩

/-- Environment of the C7 counterexample: navigation, filter selection
and submission all succeed, and the page holds `c7table`. -/
def c7env : MainEnv :=
  { gotoOk := true
    checkbox := ⟨true, true, true⟩
    submit := ⟨[true], true, true⟩
    wait := ⟨true, true, "u", "u", "u"⟩
    tables := [c7table]
    save := ⟨true, true⟩ }

/-- Header row for the C3 scenario instance: its row text triggers
header detection. -/
def c3hdrRow : Row :=
  ⟨some "Instrument Number", some [⟨CellTag.th, some "Instrument"⟩,
    ⟨CellTag.th, some "Date"⟩, ⟨CellTag.th, some "Doc"⟩]⟩

def c3cells1 : List Cell :=
  [⟨CellTag.td, some "I1"⟩, ⟨CellTag.td, some "2020"⟩, ⟨CellTag.td, some "BRAND"⟩]

def c3cells2 : List Cell :=
  [⟨CellTag.td, some "a"⟩, ⟨CellTag.td, some "b"⟩]

def c3cells3 : List Cell :=
  [⟨CellTag.td, some "I2"⟩, ⟨CellTag.td, some "2021"⟩, ⟨CellTag.td, some "BRAND"⟩]

def c3row1 : Row := ⟨some "x", some c3cells1⟩

def c3row2 : Row := ⟨some "y", some c3cells2⟩

def c3row3 : Row := ⟨some "z", some c3cells3⟩

/-- One-row table: discovery must reject it (no data rows possible). -/
def c2bad : Table := ⟨[⟨some "only", some []⟩]⟩

/-- Well-formed results table: a 3-cell first row and a data row with
meaningful text. -/
def c2good : Table :=
  ⟨[⟨some "h", some [⟨CellTag.td, some "A"⟩, ⟨CellTag.td, some "B"⟩, ⟨CellTag.td, some "C"⟩]⟩,
    ⟨some "d", some [⟨CellTag.td, some "DATA"⟩, ⟨CellTag.td, some ""⟩, ⟨CellTag.td, some ""⟩]⟩]⟩

/-! ## Theorems -/

/-- C1: for every data row whose cell query yields exactly N `td` cells,
N ≥ 3, the row mapper produces a record whose named field at each index
below min(N, 6) is that cell's text with the non-breaking-space entity
replaced by a space and trimmed, whose named fields at indices ≥ N are
the empty string, and whose `raw_data` has length exactly N. -/
theorem C1_positional_field_mapping (i : Nat) (r : Row) (cs : List Cell)
    (hc : r.cells = some cs) (hN : 3 ≤ (queryTd cs).length) :
    ∃ rec, rowToRecord i r = some rec ∧
      rec.raw_data.length = (queryTd cs).length ∧
      (∀ k c t, k < 6 → (queryTd cs)[k]? = some c → c.text = some t →
        rec.namedField k = normalizeCellText t) ∧
      (∀ k, k < 6 → (queryTd cs).length ≤ k → rec.namedField k = "") := by
  refine ⟨{ row_number := i + 1
            instrument_number := ((queryTd cs).map cellText).getD 0 ""
            date := ((queryTd cs).map cellText).getD 1 ""
            doc_type := ((queryTd cs).map cellText).getD 2 ""
            grantor := ((queryTd cs).map cellText).getD 3 ""
            grantee := ((queryTd cs).map cellText).getD 4 ""
            legal_description := ((queryTd cs).map cellText).getD 5 ""
            raw_data := (queryTd cs).map cellText }, ?_, ?_, ?_, ?_⟩
  · simp [rowToRecord, hc, hN]
  · simp
  · intro k c t hk hget htext
    interval_cases k <;>
      simp [Record.namedField, hget, cellText, htext]
  · intro k hk hlen
    interval_cases k <;>
      simp [Record.namedField, List.getElem?_eq_none hlen]

/-- Closed instance of C1 at a concrete row with four `td` cells. -/
theorem C1_witness :
    ∃ rec,
      rowToRecord 1
        ⟨some "x", some [⟨CellTag.td, some " I1&nbsp;"⟩, ⟨CellTag.td, some "2020"⟩,
          ⟨CellTag.td, some "BRAND"⟩, ⟨CellTag.td, some "G"⟩]⟩ = some rec ∧
      rec.raw_data.length =
        (queryTd [⟨CellTag.td, some " I1&nbsp;"⟩, ⟨CellTag.td, some "2020"⟩,
          ⟨CellTag.td, some "BRAND"⟩, ⟨CellTag.td, some "G"⟩]).length ∧
      (∀ k c t, k < 6 →
        (queryTd [⟨CellTag.td, some " I1&nbsp;"⟩, ⟨CellTag.td, some "2020"⟩,
          ⟨CellTag.td, some "BRAND"⟩, ⟨CellTag.td, some "G"⟩])[k]? = some c →
        c.text = some t → rec.namedField k = normalizeCellText t) ∧
      (∀ k, k < 6 →
        (queryTd [⟨CellTag.td, some " I1&nbsp;"⟩, ⟨CellTag.td, some "2020"⟩,
          ⟨CellTag.td, some "BRAND"⟩, ⟨CellTag.td, some "G"⟩]).length ≤ k →
        rec.namedField k = "") :=
  C1_positional_field_mapping 1 _ _ rfl (by decide)

/-- Helper: a list of `th`-only cells has no `td` cells. -/
theorem queryTd_eq_nil {cs : List Cell} (h : ∀ c ∈ cs, c.tag = CellTag.th) :
    queryTd cs = [] := by
  induction cs with
  | nil => rfl
  | cons c rest ih =>
    have hc : c.tag = CellTag.th := h c (List.mem_cons_self c rest)
    simp only [queryTd, List.filter_cons, hc]
    simpa [queryTd] using ih fun x hx => h x (List.mem_cons_of_mem _ hx)

/-- Helper: the `td, th` selector keeps every cell. -/
theorem queryTdTh_eq_self (cs : List Cell) : queryTdTh cs = cs := by
  induction cs with
  | nil => rfl
  | cons c rest ih =>
    cases htag : c.tag <;>
      simp only [queryTdTh, List.filter_cons, htag] <;>
      simpa [queryTdTh] using ih

/-- C10: a row made only of `th` cells yields no record, because the row
mapper collects only `td` cells (it sees fewer than 3 of them, namely
none) — while the discovery-side first-row width query keeps both `td`
and `th` cells. -/
theorem C10_th_only_rows_excluded :
    (∀ (i : Nat) (r : Row) (cs : List Cell), r.cells = some cs →
        (∀ c ∈ cs, c.tag = CellTag.th) → rowToRecord i r = none)
    ∧ ∀ cs : List Cell, queryTdTh cs = cs := by
  constructor
  · intro i r cs hc hth
    simp [rowToRecord, hc, queryTd_eq_nil hth]
  · exact queryTdTh_eq_self

/-- C3: on a 4-row table whose first row is a detected header, whose
second data row has only 2 `td` cells while the other two data rows have
at least 3, extraction returns exactly 2 records whose `row_number`
values are the 1-based positions in the original table (2 and 4); and in
general a data row with fewer than 3 `td` cells contributes nothing to
the output sequence. -/
theorem C3_short_rows_excluded (r0 r1 r2 r3 : Row) (cs1 cs2 cs3 : List Cell)
    (hdr : detectStartRow [r0, r1, r2, r3] = Except.ok 1)
    (h1 : r1.cells = some cs1) (h1n : 3 ≤ (queryTd cs1).length)
    (h2 : r2.cells = some cs2) (h2n : (queryTd cs2).length = 2)
    (h3 : r3.cells = some cs3) (h3n : 3 ≤ (queryTd cs3).length) :
    (∃ a b, extractTable ⟨[r0, r1, r2, r3]⟩ = [a, b]
      ∧ a.row_number = 2 ∧ b.row_number = 4)
    ∧ ∀ (i : Nat) (r : Row) (rs : List Row) (cs : List Cell),
        r.cells = some cs → (queryTd cs).length < 3 →
        extractFrom i (r :: rs) = extractFrom (i + 1) rs := by
  constructor
  · have e1 : ∃ a, rowToRecord 1 r1 = some a ∧ a.row_number = 2 := by
      simp [rowToRecord, h1, h1n]
    have e3 : ∃ b, rowToRecord 3 r3 = some b ∧ b.row_number = 4 := by
      simp [rowToRecord, h3, h3n]
    obtain ⟨a, ha, hra⟩ := e1
    obtain ⟨b, hb, hrb⟩ := e3
    have e2 : rowToRecord 2 r2 = none := by
      simp [rowToRecord, h2, h2n]
    refine ⟨a, b, ?_, hra, hrb⟩
    have ht : extractTable ⟨[r0, r1, r2, r3]⟩ = extractFrom 1 [r1, r2, r3] := by
      simp [extractTable, hdr]
    rw [ht]
    simp [extractFrom, ha, e2, hb]
  · intro i r rs cs hc hlen
    have hnone : rowToRecord i r = none := by
      simp [rowToRecord, hc]
      omega
    simp [extractFrom, hnone]

/-- Closed instance of C3: the concrete 4-row table with a header row, a
2-cell second data row, and 3-cell first and third data rows. -/
theorem C3_witness :
    (∃ a b, extractTable ⟨[c3hdrRow, c3row1, c3row2, c3row3]⟩ = [a, b]
      ∧ a.row_number = 2 ∧ b.row_number = 4)
    ∧ ∀ (i : Nat) (r : Row) (rs : List Row) (cs : List Cell),
        r.cells = some cs → (queryTd cs).length < 3 →
        extractFrom i (r :: rs) = extractFrom (i + 1) rs :=
  C3_short_rows_excluded c3hdrRow c3row1 c3row2 c3row3 c3cells1 c3cells2 c3cells3
    rfl rfl (by decide) rfl (by decide) rfl (by decide)

/-- C4 counterexample: a row with three `td` cells whose middle cell's
text read raises is not skipped — the mapper catches the failure per
cell, records an empty string for it, and keeps the row. -/
theorem C4_counterexample :
    rowToRecord 0 c4row = some ⟨1, "a", "", "e", "", "", "", ["a", "", "e"]⟩
    ∧ extractFrom 0 [c4row] ≠ [] := by
  exact ⟨rfl, by decide⟩

/-- C4 (amended): a row-level extraction failure (the row's cell query
raises) is caught, that row is skipped and extraction of the remaining
rows proceeds unaffected; a cell whose text cannot be read is caught per
cell and contributes an empty string, the row staying in the output. -/
theorem C4_row_failure_isolation (i : Nat) (r : Row) (rs : List Row) :
    (r.cells = none → extractFrom i (r :: rs) = extractFrom (i + 1) rs)
    ∧ ∀ cs, r.cells = some cs → 3 ≤ (queryTd cs).length →
        ∃ rec, rowToRecord i r = some rec ∧
          ∀ (k : Nat) (c : Cell), (queryTd cs)[k]? = some c → c.text = none →
            rec.raw_data[k]? = some "" := by
  constructor
  · intro h
    simp [extractFrom, rowToRecord, h]
  · intro cs hc hN
    refine ⟨{ row_number := i + 1
              instrument_number := ((queryTd cs).map cellText).getD 0 ""
              date := ((queryTd cs).map cellText).getD 1 ""
              doc_type := ((queryTd cs).map cellText).getD 2 ""
              grantor := ((queryTd cs).map cellText).getD 3 ""
              grantee := ((queryTd cs).map cellText).getD 4 ""
              legal_description := ((queryTd cs).map cellText).getD 5 ""
              raw_data := (queryTd cs).map cellText }, ?_, ?_⟩
    · simp [rowToRecord, hc, hN]
    · intro k c hget htext
      simp [hget, cellText, htext]

/-- Helper: the sampled-cell scan cannot report data when every readable
cell's stripped text is empty or the placeholder. -/
theorem scanCells_no_data {l : List Cell}
    (h : ∀ c ∈ l, ∀ s, c.text = some s → pyStrip s = "" ∨ pyStrip s = "&nbsp;") :
    scanCells l ≠ Except.ok true := by
  induction l with
  | nil => simp [scanCells]
  | cons c rest ih =>
    cases htext : c.text with
    | none => simp [scanCells, htext]
    | some s =>
      rcases h c (List.mem_cons_self c rest) s htext with h1 | h1 <;>
        simpa [scanCells, htext, h1] using
          ih fun x hx => h x (List.mem_cons_of_mem _ hx)

/-- Helper: the sampled-row scan cannot report data when no sampled row
holds a readable cell with meaningful text. -/
theorem scanRows_no_data {rs : List Row}
    (h : ∀ r ∈ rs, ∀ cs, r.cells = some cs → ∀ c ∈ queryTd cs,
      ∀ s, c.text = some s → pyStrip s = "" ∨ pyStrip s = "&nbsp;") :
    scanRows rs ≠ Except.ok true := by
  induction rs with
  | nil => simp [scanRows]
  | cons r rest ih =>
    cases hcell : r.cells with
    | none => simp [scanRows, hcell]
    | some cs =>
      have hs := scanCells_no_data (h r (List.mem_cons_self r rest) cs hcell)
      cases hsc : scanCells (queryTd cs) with
      | error e => simp [scanRows, hcell, hsc]
      | ok b =>
        cases b with
        | false =>
          simpa [scanRows, hcell, hsc] using
            ih fun x hx => h x (List.mem_cons_of_mem _ hx)
        | true => exact absurd hsc hs

/-- Helper: a table violating one of the discovery filters is never
accepted by the per-table check. -/
theorem tableCheck_not_accept {t : Table}
    (hbad : t.rows.length ≤ 1
      ∨ (∃ r0 rest cs0, t.rows = r0 :: rest ∧ r0.cells = some cs0
          ∧ (queryTdTh cs0).length < 3)
      ∨ (∀ r ∈ (t.rows.drop 1).take 2, ∀ cs, r.cells = some cs →
          ∀ c ∈ queryTd cs, ∀ s, c.text = some s →
            pyStrip s = "" ∨ pyStrip s = "&nbsp;")) :
    ∀ v, tableCheck t ≠ Except.ok (some v) := by
  intro v
  by_cases hlen : t.rows.length ≤ 1
  · simp [tableCheck, hlen]
  · rcases hbad with h1 | ⟨r0, rest, cs0, hrows, hc0, hlt⟩ | h3
    · exact absurd h1 hlen
    · simp [tableCheck, hlen, hrows, hc0, hlt]
    · obtain ⟨r0, rest, hrows⟩ : ∃ r0 rest, t.rows = r0 :: rest := by
        cases hr : t.rows with
        | nil => rw [hr] at hlen; simp at hlen
        | cons a b => exact ⟨a, b, rfl⟩
      have hrest : rest ≠ [] := by
        intro hr
        rw [hrows, hr] at hlen
        simp at hlen
      cases hc0 : r0.cells with
      | none => simp [tableCheck, hrows, hrest, hc0]
      | some cs0 =>
        by_cases hw : (queryTdTh cs0).length < 3
        · simp [tableCheck, hrows, hrest, hc0, hw]
        · have hnd : scanRows (rest.take 2) ≠ Except.ok true := by
            apply scanRows_no_data
            intro x hx
            exact h3 x (by simpa [hrows] using hx)
          cases hsr : scanRows (rest.take 2) with
          | error e => simp [tableCheck, hrows, hrest, hc0, hw, hsr]
          | ok b =>
            cases b with
            | false => simp [tableCheck, hrows, hrest, hc0, hw, hsr]
            | true => exact absurd hsr hnd

/-- Helper: an index returned by the scan from position `i` is at least
`i`. -/
theorem findAux_index_ge {ts : List Table} : ∀ {i : Nat} {res},
    findAux i ts = some res → i ≤ res.2.1 := by
  induction ts with
  | nil =>
    intro i res h
    simp [findAux] at h
  | cons t rest ih =>
    intro i res h
    cases htc : tableCheck t with
    | error e =>
      simp only [findAux, htc] at h
      exact Nat.le_of_succ_le (ih h)
    | ok o =>
      cases o with
      | none =>
        simp only [findAux, htc] at h
        exact Nat.le_of_succ_le (ih h)
      | some v =>
        cases v with
        | mk nr nc =>
          simp only [findAux, htc] at h
          cases h
          exact Nat.le_refl i

/-- Helper: the scan never returns the index of a table the per-table
check does not accept. -/
theorem findAux_ne {ts : List Table} : ∀ {i j : Nat} {t : Table} {res},
    ts[j]? = some t → (∀ v, tableCheck t ≠ Except.ok (some v)) →
    findAux i ts = some res → res.2.1 ≠ i + j := by
  induction ts with
  | nil =>
    intro i j t res hj
    simp at hj
  | cons a rest ih =>
    intro i j t res hj hrej hfind
    cases j with
    | zero =>
      have ha : a = t := by simpa using hj
      cases htc : tableCheck a with
      | error e =>
        simp only [findAux, htc] at hfind
        have := findAux_index_ge hfind
        omega
      | ok o =>
        cases o with
        | none =>
          simp only [findAux, htc] at hfind
          have := findAux_index_ge hfind
          omega
        | some v => exact absurd (ha ▸ htc) (hrej v)
    | succ m =>
      simp only [List.getElem?_cons_succ] at hj
      cases htc : tableCheck a with
      | error e =>
        simp only [findAux, htc] at hfind
        have := ih hj hrej hfind
        omega
      | ok o =>
        cases o with
        | none =>
          simp only [findAux, htc] at hfind
          have := ih hj hrej hfind
          omega
        | some v =>
          cases v with
          | mk nr nc =>
            simp only [findAux, htc] at hfind
            cases hfind
            show ¬ i = i + (m + 1)
            omega

/-- C2: a table with at most one row, or with fewer than 3 cells in its
first row, or whose sampled first two data rows hold no readable cell
with stripped text that is non-empty and different from the
non-breaking-space placeholder, is never the table discovery selects. -/
theorem C2_discovery_rejects (tables : List Table) (j : Nat) (t : Table)
    (hj : tables[j]? = some t)
    (hbad : t.rows.length ≤ 1
      ∨ (∃ r0 rest cs0, t.rows = r0 :: rest ∧ r0.cells = some cs0
          ∧ (queryTdTh cs0).length < 3)
      ∨ (∀ r ∈ (t.rows.drop 1).take 2, ∀ cs, r.cells = some cs →
          ∀ c ∈ queryTd cs, ∀ s, c.text = some s →
            pyStrip s = "" ∨ pyStrip s = "&nbsp;")) :
    ∀ res, find_results_table tables = some res → res.2.1 ≠ j := by
  intro res hfind
  have h0 := findAux_ne hj (tableCheck_not_accept hbad) hfind
  simpa using h0

/-- Closed instance of C2: against a page holding the one-row table
followed by a well-formed table, discovery selects index 1, not the
rejected index 0. -/
theorem C2_witness : ((c2good, 1, 2, 3) : Table × Nat × Nat × Nat).2.1 ≠ 0 :=
  C2_discovery_rejects [c2bad, c2good] 0 c2bad rfl (Or.inl (by decide))
    (c2good, 1, 2, 3) rfl

/-- C5: when the underlying wait mechanism errors (the searching
indicator never appears within its timeout, or never disappears within
the long timeout), the results waiter falls back to checking whether the
current URL holds the results-page path and returns that boolean instead
of raising; the embedding is a total boolean-valued function. -/
theorem C5_waiter_fallback (e : WaitEnv)
    (h : e.modalAppears = false ∨ e.modalDisappears = false) :
    wait_for_search_results e = strContains e.urlAtFailure resultsUrlFragment := by
  rcases h with h | h <;> simp [wait_for_search_results, h]

/-- Closed instance of C5: the indicator never appears while the page
URL already holds the results path. -/
theorem C5_witness :
    wait_for_search_results ⟨false, false, "a", "b", "https://x/SearchResults.aspx?p=1"⟩
      = strContains "https://x/SearchResults.aspx?p=1" resultsUrlFragment :=
  C5_waiter_fallback ⟨false, false, "a", "b", "https://x/SearchResults.aspx?p=1"⟩
    (Or.inl rfl)

/-- C6: for a non-empty record sequence the persister always attempts
both the CSV and the JSONL write, whatever either write's outcome — a
failure of one format never prevents attempting the other. -/
theorem C6_both_formats_attempted (e : SaveEnv) (data : List Record)
    (h : data ≠ []) :
    SaveAction.csvAttempt ∈ (save_results e data).actions
    ∧ SaveAction.jsonlAttempt ∈ (save_results e data).actions := by
  have hne : data.isEmpty = false := by simpa using h
  constructor <;> simp [save_results, hne]

/-- Closed instance of C6: the CSV write fails and the JSONL write is
attempted anyway (and conversely both attempts appear in the trace). -/
theorem C6_witness :
    SaveAction.csvAttempt ∈
      (save_results ⟨false, true⟩ [⟨1, "", "", "", "", "", "", []⟩]).actions
    ∧ SaveAction.jsonlAttempt ∈
      (save_results ⟨false, true⟩ [⟨1, "", "", "", "", "", "", []⟩]).actions :=
  C6_both_formats_attempted ⟨false, true⟩ [⟨1, "", "", "", "", "", "", []⟩]
    (by decide)

/-- C8: when the checkbox is found and is already checked, the filter
selector returns successfully with a trace holding no click and no
settle wait — the page is left unchanged. -/
theorem C8_already_checked_noop (e : CheckboxEnv)
    (hf : e.found = true) (hc : e.checkedBefore = true) :
    ∃ acts, select_brand_document_type e = Except.ok acts
      ∧ CbAction.clickBox ∉ acts ∧ CbAction.settleWait ∉ acts := by
  refine ⟨[CbAction.waitSelector, CbAction.readChecked], ?_, by decide, by decide⟩
  simp [select_brand_document_type, hf, hc]

/-- Closed instance of C8 at the found-and-checked environment. -/
theorem C8_witness :
    ∃ acts, select_brand_document_type ⟨true, true, true⟩ = Except.ok acts
      ∧ CbAction.clickBox ∉ acts ∧ CbAction.settleWait ∉ acts :=
  C8_already_checked_noop ⟨true, true, true⟩ rfl rfl

/-- Helper: decoding a string array gives back the strings. -/
theorem asStrList_map (l : List String) : asStrList (l.map JVal.jstr) = some l := by
  induction l with
  | nil => rfl
  | cons s rest ih => simp [asStrList, ih]

/-- Helper: a serialised record parses back to itself. -/
theorem jsonToRecord_recordToJson (r : Record) :
    jsonToRecord (recordToJson r) = some r := by
  cases r with
  | mk n a b c d e f l => simp [recordToJson, jsonToRecord, asStrList_map]

/-- C9: when the JSONL write succeeds, every line written to the
newline-delimited JSON output parses back to exactly the in-memory
record — integer `row_number`, the six named string fields and
`raw_data` as the same list of strings. -/
theorem C9_jsonl_roundtrip (e : SaveEnv) (data : List Record)
    (hok : e.jsonlOk = true) :
    (save_results e data).jsonl.map jsonToRecord = data.map some := by
  by_cases hd : data.isEmpty
  · have hnil : data = [] := by simpa using hd
    simp [save_results, hnil]
  · have hne : data.isEmpty = false := by simpa using hd
    simp only [save_results, hne, Bool.false_eq_true, if_neg, ite_false, hok,
      ite_true, List.map_map]
    exact List.map_congr_left fun r _ => jsonToRecord_recordToJson r

/-- Closed instance of C9 at a one-record sequence. -/
theorem C9_witness :
    (save_results ⟨true, true⟩
        [⟨2, "I1", "2020", "BRAND", "G1", "G2", "L", ["I1", "2020", "BRAND"]⟩]).jsonl.map
      jsonToRecord
      = [⟨2, "I1", "2020", "BRAND", "G1", "G2", "L", ["I1", "2020", "BRAND"]⟩].map some :=
  C9_jsonl_roundtrip ⟨true, true⟩
    [⟨2, "I1", "2020", "BRAND", "G1", "G2", "L", ["I1", "2020", "BRAND"]⟩] rfl

/-- C7 counterexample: navigation, filter selection and submission all
succeed, discovery accepts the page's table, and then the extraction
step fails internally (the header row's text read raises) — yet the run
completes with an empty record list instead of aborting, because
`scrape_results_table` catches its failures and returns the empty list. -/
theorem C7_counterexample :
    detectStartRow c7table.rows = Except.error ()
    ∧ find_results_table [c7table] = some (c7table, 0, 2, 3)
    ∧ runMain c7env = Except.ok ([], ⟨[], []⟩) :=
  ⟨rfl, rfl, rfl⟩

/-- C7 (amended): a failure during navigation, filter selection or
search submission is re-raised and aborts the run; failures inside the
results waiter and the table extractor are caught within those steps
(extraction failures yield the empty record list), and persister
failures are caught per format — so once the first three steps succeed
the run always completes. -/
theorem C7_step_propagation (env : MainEnv) :
    (env.gotoOk = false → runMain env = Except.error ())
    ∧ (select_brand_document_type env.checkbox = Except.error () →
        runMain env = Except.error ())
    ∧ (click_search_button env.submit = Except.error () →
        runMain env = Except.error ())
    ∧ (env.gotoOk = true →
        (∀ err, select_brand_document_type env.checkbox ≠ Except.error err) →
        (∀ err, click_search_button env.submit ≠ Except.error err) →
        runMain env = Except.ok (scrape_results_table env.tables,
          save_results env.save (scrape_results_table env.tables))) := by
  refine ⟨?_, ?_, ?_, ?_⟩
  · intro h
    simp [runMain, h]
  · intro h
    by_cases hg : env.gotoOk = false <;> simp [runMain, hg, h]
  · intro h
    by_cases hg : env.gotoOk = false
    · simp [runMain, hg]
    · cases hs : select_brand_document_type env.checkbox with
      | error e => simp [runMain, hg, hs]
      | ok acts => simp [runMain, hg, hs, h]
  · intro hg hsel hclick
    cases hs : select_brand_document_type env.checkbox with
    | error e => exact absurd hs (hsel e)
    | ok acts =>
      cases hcl : click_search_button env.submit with
      | error e => exact absurd hcl (hclick e)
      | ok u =>
        cases u
        simp [runMain, hg, hs, hcl]

end FortBend
